import Mathlib

/-!
# tables-to-go: settings, PostgreSQL dialect and taggers

A shallow embedding of `src/settings/settings.go`, `src/database/postgresql.go`
and `src/tagger/tagger.go`, followed by theorems about it.

Conventions of the embedding

* A Go `string` is a Lean `String`; the functions of package `strings` are
  written over the list of characters. All patterns searched for in the
  sources are ASCII, for which searching bytes and searching characters agree.
* A Go `error` value is `Option Error`, `none` being `nil`. The text of an
  error message is not modelled, only the place that built it.
* A method with a pointer receiver that assigns to a field returns the new
  value of the receiver next to its result.
* Calls that leave the program (`os.Stat`, `filepath.Abs`, the connection and
  the prepared statement) are functions handed to the method, so that a theorem quantifies
  over every behaviour of the outside world.
* Receivers and handles are taken to be non-nil pointers; the one nil value
  that is modelled is the `os.FileInfo` that `os.Stat` returns with an error.
-/

set_option autoImplicit false

namespace TablesToGo

/-! ## Go runtime and standard library -/

/-- Termination of a Go call: it returns a value, or the goroutine panics. -/
inductive Outcome (α : Type) where
  | returned (a : α)
  | panicked
deriving DecidableEq, Repr

/-- Go error values. The first five are the `fmt.Errorf` calls of `settings.go`, in
source order; `external` is an error built outside the repository (package `os`,
`path/filepath`, the SQL driver), with what `os.IsNotExist` answers for it. -/
inductive Error where
  | dbTypeNotSupported (dbType : String)
  | outputFormatNotSupported (outputFormat : String)
  | outputPathDoesNotExist (path : String)
  | outputPathNotADirectory (path : String)
  | packageNameEmpty
  | external (msg : String) (notExist : Bool)
deriving DecidableEq, Repr

/-- Go `os.IsNotExist`: false for `nil` and for every error built by `fmt.Errorf`. -/
def osIsNotExist : Option Error → Bool
  | some (Error.external _ notExist) => notExist
  | _ => false

/-- Go `os.FileInfo`, reduced to what `info.Mode().IsDir()` reads. -/
structure FileInfo where
  IsDir : Bool
deriving DecidableEq, Repr

/-- The file system as `settings.go` sees it: `os.Stat` (a possibly nil `FileInfo` and
an error), `filepath.Abs` and `filepath.Separator`. -/
structure FileSystem where
  Stat : String → Option FileInfo × Option Error
  Abs : String → String × Option Error
  Separator : Char

/-- Go map lookup `m[k]` on a `map[string]bool` literal: `false` for a missing key. -/
def mapLookupBool (m : List (String × Bool)) (k : String) : Bool :=
  (m.lookup k).getD false

/-- Go map lookup `m[k]` on a `map[string]string` literal: `""` for a missing key. -/
def mapLookupString (m : List (String × String)) (k : String) : String :=
  (m.lookup k).getD ""

/-- Go `strings.Contains(s, substr)`: `substr` starts at some position of `s`. -/
def stringsContains (s substr : String) : Bool :=
  s.data.tails.any (fun t => substr.data.isPrefixOf t)

/-- Go `strings.HasSuffix(s, suffix)`. -/
def stringsHasSuffix (s suffix : String) : Bool :=
  suffix.data.isSuffixOf s.data

/-- Go `strings.TrimSuffix(s, suffix)`: `s` without the trailing `suffix`, or `s`
itself when it does not end in `suffix`. -/
def stringsTrimSuffix (s suffix : String) : String :=
  if stringsHasSuffix s suffix then
    String.mk (s.data.take (s.data.length - suffix.data.length))
  else s

/-- Go `fmt.Sprintf("%v", n)` for an `int64`: decimal digits, `-` in front of a
negative number. -/
def sprintInt64 : Int → String
  | Int.ofNat m => Nat.repr m
  | Int.negSucc m => "-" ++ Nat.repr (m + 1)

/-- Go `fmt.Sprintf(format, args...)` for string arguments and the verb `%v`, on the
characters of the format: each `%v` is replaced by the next argument, written as it
is; a `%v` without an argument left is written `%!v(MISSING)`. Arguments left over
at the end of the format are not modelled (no call of the sources has any). -/
def sprintfChars : List Char → List String → List Char
  | '%' :: 'v' :: format, arg :: args => arg.data ++ sprintfChars format args
  | '%' :: 'v' :: format, [] => "%!v(MISSING)".data ++ sprintfChars format []
  | c :: format, args => c :: sprintfChars format args
  | [], _ => []

/-- Go `fmt.Sprintf(format, args...)` for string arguments and the verb `%v`. -/
def fmtSprintf (format : String) (args : List String) : String :=
  String.mk (sprintfChars format.data args)

/-- One call of `fmt.Println` or `fmt.Printf` on standard output: the format string
and the arguments, unformatted. -/
structure PrintCall where
  format : String
  args : List String
deriving DecidableEq, Repr

/-! ## Package settings -/

/-- The supported databases (`supportedDbTypes`). -/
def supportedDbTypes : List (String × Bool) :=
  [("pg", true), ("mysql", true)]

/-- The supported output formats (`supportedOutputFormats`). -/
def supportedOutputFormats : List (String × Bool) :=
  [("c", true), ("o", true)]

/-- The default port of each database type (`dbDefaultPorts`). -/
def dbDefaultPorts : List (String × String) :=
  [("pg", "5432"), ("mysql", "3306")]

/-- The settings / command line arguments (`type Settings struct`). -/
structure Settings where
  Verbose : Bool
  DbType : String
  User : String
  Pswd : String
  DbName : String
  Schema : String
  Host : String
  Port : String
  OutputFilePath : String
  OutputFormat : String
  OutputFormatTag : String
  PackageName : String
  Prefix : String
  Suffix : String
  TagsNoDb : Bool
  TagsMastermindStructable : Bool
  TagsMastermindStructableOnly : Bool
  IsMastermindStructableRecorder : Bool
  TagsGorm : Bool
  TagsSQL : Bool
  TagsSQLOnly : Bool
deriving DecidableEq, Repr

namespace Settings

/-- Go `NewSettings`, with `dir` the directory of the executable as computed from
`os.Args[0]` (or `"."` when `filepath.Abs` fails). -/
def NewSettings (dir : String) : Settings :=
  { Verbose := false
    DbType := "pg"
    User := "postgres"
    Pswd := ""
    DbName := "postgres"
    Schema := "public"
    Host := "127.0.0.1"
    Port := ""
    OutputFilePath := dir
    OutputFormat := "c"
    OutputFormatTag := "c"
    PackageName := "dto"
    Prefix := ""
    Suffix := ""
    TagsNoDb := false
    TagsMastermindStructable := false
    TagsMastermindStructableOnly := false
    IsMastermindStructableRecorder := false
    TagsGorm := false
    TagsSQL := false
    TagsSQLOnly := false }

/-- Go `verifyOutputPath`: the not-exist test comes first; `info.Mode()` is then called
on whatever `os.Stat` returned, which panics on a nil `FileInfo`. -/
def verifyOutputPath (settings : Settings) (fs : FileSystem) : Outcome (Option Error) :=
  match fs.Stat settings.OutputFilePath with
  | (info, err) =>
    if osIsNotExist err then
      Outcome.returned (some (Error.outputPathDoesNotExist settings.OutputFilePath))
    else
      match info with
      | none => Outcome.panicked
      | some fi =>
        if !fi.IsDir then
          Outcome.returned (some (Error.outputPathNotADirectory settings.OutputFilePath))
        else
          Outcome.returned err

/-- Go `prepareOutputPath`: the absolute path followed by the separator, and the error
of `filepath.Abs`. -/
def prepareOutputPath (settings : Settings) (fs : FileSystem) : String × Option Error :=
  match fs.Abs settings.OutputFilePath with
  | (outputFilePath, err) => (outputFilePath ++ String.singleton fs.Separator, err)

/-- Go `Settings.Verify`: the settings after the call and how the call ended. -/
def Verify (settings : Settings) (fs : FileSystem) : Settings × Outcome (Option Error) :=
  if !mapLookupBool supportedDbTypes settings.DbType then
    (settings, Outcome.returned (some (Error.dbTypeNotSupported settings.DbType)))
  else if !mapLookupBool supportedOutputFormats settings.OutputFormat then
    (settings, Outcome.returned (some (Error.outputFormatNotSupported settings.OutputFormat)))
  else
    match settings.verifyOutputPath fs with
    | Outcome.panicked => (settings, Outcome.panicked)
    | Outcome.returned (some e) => (settings, Outcome.returned (some e))
    | Outcome.returned none =>
      match settings.prepareOutputPath fs with
      | (outputFilePath, err) =>
        let settings1 : Settings := { settings with OutputFilePath := outputFilePath }
        match err with
        | some e => (settings1, Outcome.returned (some e))
        | none =>
          let settings2 : Settings :=
            if settings1.Port = "" then
              { settings1 with Port := mapLookupString dbDefaultPorts settings1.DbType }
            else settings1
          if settings2.PackageName = "" then
            (settings2, Outcome.returned (some Error.packageNameEmpty))
          else
            (settings2, Outcome.returned none)

end Settings

/-! ## Package database -/

/-- Go `sql.NullString`: `Valid` is false for SQL NULL. -/
structure NullString where
  String : String
  Valid : Bool
deriving DecidableEq, Repr

/-- Go `sql.NullInt64`: `Valid` is false for SQL NULL. -/
structure NullInt64 where
  Int64 : Int
  Valid : Bool
deriving DecidableEq, Repr

/-- Modelled from the spec: the `Column` struct of `database.go`, which is not among
the sources. One catalog row: the fields the spec lists, with the names and the
`sql.Null*` wrappers that `postgresql.go` and `tagger.go` select from it, and the
nullability indicator as the catalog string (`"YES"` / `"NO"`). -/
structure Column where
  OrdinalPosition : Int
  Name : String
  DataType : String
  DefaultValue : NullString
  IsNullable : String
  CharacterMaximumLength : NullInt64
  NumericPrecision : NullInt64
  ConstraintName : NullString
  ConstraintType : NullString
deriving DecidableEq, Repr

/-- Modelled from the spec: the `Table` struct of `database.go`, which is not among
the sources: a name and the ordered sequence of columns. -/
structure Table where
  Name : String
  Columns : List Column
deriving DecidableEq, Repr

/-- Modelled from the spec: the part of the `Database` interface of `database.go`
(not among the sources) that the taggers call: the classification predicates. -/
structure Database where
  IsPrimaryKey : Column → Bool
  IsAutoIncrement : Column → Bool
  IsNullable : Column → Bool
  IsString : Column → Bool
  IsText : Column → Bool
  IsInteger : Column → Bool
  IsFloat : Column → Bool
  IsTemporal : Column → Bool

/-- The prepared statement `getColumnsOfTableStmt`: `Select` receives the destination
slice and the two bound arguments, and yields the destination after the call and
the error of the driver. -/
structure Stmt where
  Select : List Column → String → String → List Column × Option Error

/-- The connection handle `db`: `Select` receives the destination slice, the query
text and the bound argument, and yields the destination after the call and the
error of the driver. -/
structure DB where
  Select : List Table → String → String → List Table × Option Error

/-- The `postgresql` struct with the fields of the embedded `generalDatabase` that
the methods below read. -/
structure postgresql where
  settings : Settings
  db : DB
  getColumnsOfTableStmt : Stmt

namespace generalDatabase

/-- Modelled from the spec: `IsStringInSlice` of `generalDatabase`, which is not among
the sources: the generic "is type in list" check, a loop over the haystack. -/
def IsStringInSlice (needle : String) : List String → Bool
  | [] => false
  | s :: haystack => if s = needle then true else IsStringInSlice needle haystack

/-- Modelled from the spec: `IsNullable` of `generalDatabase`, which is not among the
sources: the catalog string `"YES"` converted to a boolean. -/
def IsNullable (column : Column) : Bool :=
  decide (column.IsNullable = "YES")

end generalDatabase

namespace postgresql

/-- Go `DSN`: the data source name built from the settings handed to the method. -/
def DSN (_pg : postgresql) (settings : Settings) : String :=
  fmtSprintf "host=%v port=%v user=%v dbname=%v password=%v sslmode=disable"
    [settings.Host, settings.Port, settings.User, settings.DbName, settings.Pswd]

/-- The catalog query of `GetTables`. -/
def getTablesQuery : String :=
  "\n\t\tSELECT table_name\n\t\tFROM information_schema.tables\n\t\tWHERE table_type = 'BASE TABLE'\n\t\tAND table_schema = $1\n\t\tORDER BY table_name\n\t"

/-- Go `GetTables`: the returned tables, the returned error and what was printed. The
named result `tables` is nil when `Select` receives it. -/
def GetTables (pg : postgresql) : List Table × Option Error × List PrintCall :=
  match pg.db.Select [] getTablesQuery pg.settings.Schema with
  | (tables, err) =>
    let printed : List PrintCall :=
      if pg.settings.Verbose then
        if err ≠ none then
          [PrintCall.mk "> Error at GetTables()\n" [],
           PrintCall.mk "> schema: %q\r\n" [pg.settings.Schema]]
        else []
      else []
    (tables, err, printed)

/-- Go `GetColumnsOfTable`: the table after the call, the returned error and what was
printed. The result of `Select` is dropped by the source, so the named result
`err` still holds `nil` when it is tested and returned. -/
def GetColumnsOfTable (pg : postgresql) (table : Table) :
    Table × Option Error × List PrintCall :=
  let err : Option Error := none
  let table1 : Table :=
    { table with
      Columns := (pg.getColumnsOfTableStmt.Select table.Columns table.Name pg.settings.Schema).1 }
  let printed : List PrintCall :=
    if pg.settings.Verbose then
      if err ≠ none then
        [PrintCall.mk "> Error at GetColumnsOfTable(%v)\r\n" [table.Name],
         PrintCall.mk "> schema: %q\r\n" [pg.settings.Schema]]
      else []
    else []
  (table1, err, printed)

/-- Go `IsPrimaryKey`: checks if column belongs to primary key. -/
def IsPrimaryKey (_pg : postgresql) (column : Column) : Bool :=
  stringsContains column.ConstraintType.String "PRIMARY KEY"

/-- Go `IsAutoIncrement`: checks if column is a serial column. -/
def IsAutoIncrement (_pg : postgresql) (column : Column) : Bool :=
  stringsContains column.DefaultValue.String "nextval"

/-- The string datatypes of PostgreSQL (`GetStringDatatypes`). -/
def GetStringDatatypes (_pg : postgresql) : List String :=
  ["character varying", "varchar", "character", "char"]

/-- Go `IsString`: the column is of type string. -/
def IsString (pg : postgresql) (column : Column) : Bool :=
  generalDatabase.IsStringInSlice column.DataType pg.GetStringDatatypes

/-- The text datatypes of PostgreSQL (`GetTextDatatypes`). -/
def GetTextDatatypes (_pg : postgresql) : List String :=
  ["text"]

/-- Go `IsText`: the column is of type text. -/
def IsText (pg : postgresql) (column : Column) : Bool :=
  generalDatabase.IsStringInSlice column.DataType pg.GetTextDatatypes

/-- The integer datatypes of PostgreSQL (`GetIntegerDatatypes`). -/
def GetIntegerDatatypes (_pg : postgresql) : List String :=
  ["smallint", "integer", "bigint", "smallserial", "serial", "bigserial"]

/-- Go `IsInteger`: the column is of type integer. -/
def IsInteger (pg : postgresql) (column : Column) : Bool :=
  generalDatabase.IsStringInSlice column.DataType pg.GetIntegerDatatypes

/-- The float datatypes of PostgreSQL (`GetFloatDatatypes`). -/
def GetFloatDatatypes (_pg : postgresql) : List String :=
  ["numeric", "decimal", "real", "double precision"]

/-- Go `IsFloat`: the column is of type float. -/
def IsFloat (pg : postgresql) (column : Column) : Bool :=
  generalDatabase.IsStringInSlice column.DataType pg.GetFloatDatatypes

/-- The temporal datatypes of PostgreSQL (`GetTemporalDatatypes`). -/
def GetTemporalDatatypes (_pg : postgresql) : List String :=
  ["time", "timestamp", "time with time zone", "timestamp with time zone",
   "time without time zone", "timestamp without time zone", "date"]

/-- Go `IsTemporal`: the column is of type temporal. -/
def IsTemporal (pg : postgresql) (column : Column) : Bool :=
  generalDatabase.IsStringInSlice column.DataType pg.GetTemporalDatatypes

/-- The `postgresql` value seen through the `Database` interface; `IsNullable` is the
promoted method of the embedded `generalDatabase`. -/
def toDatabase (pg : postgresql) : Database :=
  { IsPrimaryKey := pg.IsPrimaryKey
    IsAutoIncrement := pg.IsAutoIncrement
    IsNullable := generalDatabase.IsNullable
    IsString := pg.IsString
    IsText := pg.IsText
    IsInteger := pg.IsInteger
    IsFloat := pg.IsFloat
    IsTemporal := pg.IsTemporal }

end postgresql

/-! ## Package tagger -/

/-- Type `DbTag` is the standard "db"-tag. -/
abbrev DbTag : Type := String

/-- Type `StblTag` represents the Masterminds/structable "stbl"-tag. -/
abbrev StblTag : Type := String

/-- Type `SQLTag` is the experimental "sql"-tag. -/
abbrev SQLTag : Type := String

/-- Go `DbTag.GenerateTag`. `SnakeCase` is `strcase.SnakeCase` of the imported library
`github.com/stoewer/go-strcase`. -/
def DbTag.GenerateTag (_t : DbTag) (SnakeCase : String → String)
    (_db : Database) (column : Column) (settings : Settings) : String :=
  let tag := "db:\"" ++ column.Name ++ "\""
  if settings.OutputFormatTag = "o" then
    "db:\"" ++ SnakeCase column.Name ++ "\""
  else tag

/-- Go `StblTag.GenerateTag`. `SnakeCase` is `strcase.SnakeCase` of the imported library
`github.com/stoewer/go-strcase`. -/
def StblTag.GenerateTag (_t : StblTag) (SnakeCase : String → String)
    (db : Database) (column : Column) (settings : Settings) : String :=
  let isPk := if db.IsPrimaryKey column then ",PRIMARY_KEY" else ""
  let isAutoIncrement := if db.IsAutoIncrement column then ",SERIAL,AUTO_INCREMENT" else ""
  let tag := "stbl:\"" ++ column.Name ++ isPk ++ isAutoIncrement ++ "\""
  if settings.OutputFormatTag = "o" then
    "stbl:\"" ++ SnakeCase column.Name ++ isPk ++ isAutoIncrement ++ "\""
  else tag

/-- Go `SQLTag.GenerateTag`: the trailing separator of the tag is trimmed. -/
def SQLTag.GenerateTag (_t : SQLTag)
    (db : Database) (column : Column) (_settings : Settings) : String :=
  let characterMaximumLength :=
    if db.IsString column && column.CharacterMaximumLength.Valid then
      "(" ++ sprintInt64 column.CharacterMaximumLength.Int64 ++ ")"
    else ""
  let colType := "type:" ++ column.DataType ++ characterMaximumLength ++ ";"
  let isNullable := if !db.IsNullable column then "not null;" else ""
  let tag := colType ++ isNullable
  let tag := stringsTrimSuffix tag ";"
  "sql:\"" ++ tag ++ "\""

/-! ## Example values -/

/-- A PostgreSQL database object: default settings, a connection whose queries fail
and a statement that fails. -/
def examplePg : postgresql :=
  { settings := Settings.NewSettings "/tmp"
    db := { Select := fun dest _ _ => (dest, some (Error.external "pq: connection refused" false)) }
    getColumnsOfTableStmt :=
      { Select := fun dest _ _ => (dest, some (Error.external "pq: relation does not exist" false)) } }

/-- A column whose `sql.Null*` fields are all SQL NULL. -/
def exampleColumn (name dataType isNullable : String) : Column :=
  { OrdinalPosition := 1
    Name := name
    DataType := dataType
    DefaultValue := NullString.mk "" false
    IsNullable := isNullable
    CharacterMaximumLength := NullInt64.mk 0 false
    NumericPrecision := NullInt64.mk 0 false
    ConstraintName := NullString.mk "" false
    ConstraintType := NullString.mk "" false }

/-- A column whose default value is SQL NULL (`Valid` false) while the `String` field
of the wrapper holds a sequence call. -/
def absentDefaultColumn : Column :=
  { exampleColumn "id" "integer" "NO" with
    DefaultValue := NullString.mk "nextval('seq')" false }

/-- A column whose constraint type is SQL NULL (`Valid` false) while the `String` field
of the wrapper holds a constraint type. -/
def absentConstraintColumn : Column :=
  { exampleColumn "id" "integer" "NO" with
    ConstraintType := NullString.mk "PRIMARY KEY" false }

/-- The column of the typed-schema scenario: `email`, `character varying`, maximum
length 255, not nullable. -/
def emailColumn : Column :=
  { exampleColumn "email" "character varying" "NO" with
    CharacterMaximumLength := NullInt64.mk 255 true }

/-- The column of the structured-ORM scenario: `id`, `serial`, default
`nextval('t_id_seq')`, primary key. -/
def idColumn : Column :=
  { exampleColumn "id" "serial" "NO" with
    DefaultValue := NullString.mk "nextval('t_id_seq')" true
    ConstraintType := NullString.mk "PRIMARY KEY" true }

/-- A database whose classification predicates all answer `b`. -/
def constDatabase (b : Bool) : Database :=
  { IsPrimaryKey := fun _ => b
    IsAutoIncrement := fun _ => b
    IsNullable := fun _ => b
    IsString := fun _ => b
    IsText := fun _ => b
    IsInteger := fun _ => b
    IsFloat := fun _ => b
    IsTemporal := fun _ => b }

/-- The table of the failing column fetch. -/
def ordersTable : Table :=
  { Name := "orders", Columns := [] }

/-- A file system in which every path is an existing directory and is already
absolute. -/
def directoryFs : FileSystem :=
  { Stat := fun _ => (some (FileInfo.mk true), none)
    Abs := fun path => (path, none)
    Separator := '/' }

/-- A file system in which `os.Stat` fails with a permission error on every path. -/
def deniedFs : FileSystem :=
  { Stat := fun _ => (none, some (Error.external "permission denied" false))
    Abs := fun path => (path, none)
    Separator := '/' }

/-- Default settings asking for a dialect that is not supported. -/
def sqliteSettings : Settings :=
  { Settings.NewSettings "/tmp" with DbType := "sqlite" }

/-- Default settings for the MySQL dialect with an explicit port. -/
def mysqlSettings : Settings :=
  { Settings.NewSettings "/tmp" with DbType := "mysql", Port := "3307" }

/-- The default settings after a successful `Verify` on `directoryFs`. -/
def verifiedSettings : Settings :=
  { Settings.NewSettings "/tmp" with OutputFilePath := "/tmp/", Port := "5432" }

/-- Default settings with a tag format outside the supported output formats. -/
def tagXSettings : Settings :=
  { Settings.NewSettings "/tmp" with OutputFormatTag := "x" }

/-- Default settings without a package name. -/
def noPackageSettings : Settings :=
  { Settings.NewSettings "/tmp" with PackageName := "" }

/-- A file system in which every path is an existing directory and `filepath.Abs`
fails (the working directory cannot be determined). -/
def noCwdFs : FileSystem :=
  { Stat := fun _ => (some (FileInfo.mk true), none)
    Abs := fun _ => ("", some (Error.external "getwd: no such file or directory" false))
    Separator := '/' }

/-- Settings of another database on another host, with every flag set. -/
def otherSettings : Settings :=
  { Verbose := true
    DbType := "pg"
    User := "alice"
    Pswd := "secret"
    DbName := "shop"
    Schema := "sales"
    Host := "db.internal"
    Port := "6543"
    OutputFilePath := "/srv/out"
    OutputFormat := "o"
    OutputFormatTag := "o"
    PackageName := "model"
    Prefix := "T"
    Suffix := "Row"
    TagsNoDb := true
    TagsMastermindStructable := true
    TagsMastermindStructableOnly := true
    IsMastermindStructableRecorder := true
    TagsGorm := true
    TagsSQL := true
    TagsSQLOnly := true }

/-! ## Lemmas on the standard-library functions -/

/-- Go `strings.Contains` decides the infix relation on the characters. -/
theorem stringsContains_iff (s substr : String) :
    stringsContains s substr = true ↔ substr.data <:+: s.data := by
  unfold stringsContains
  rw [List.any_eq_true, List.infix_iff_prefix_suffix]
  constructor
  · rintro ⟨t, ht, hp⟩
    exact ⟨t, List.isPrefixOf_iff_prefix.mp hp, (List.mem_tails t s.data).mp ht⟩
  · rintro ⟨t, hp, ht⟩
    exact ⟨t, (List.mem_tails t s.data).mpr ht, List.isPrefixOf_iff_prefix.mpr hp⟩

/-- Go `strings.TrimSuffix` removes a suffix that was appended. -/
theorem stringsTrimSuffix_append (s suffix : String) :
    stringsTrimSuffix (s ++ suffix) suffix = s := by
  have h : stringsHasSuffix (s ++ suffix) suffix = true := by
    unfold stringsHasSuffix
    rw [List.isSuffixOf_iff_suffix, String.data_append]
    exact List.suffix_append _ _
  unfold stringsTrimSuffix
  rw [if_pos h]
  apply String.ext
  simp [String.data_append]

/-- The loop `IsStringInSlice` decides membership in the haystack. -/
theorem IsStringInSlice_iff (needle : String) (haystack : List String) :
    generalDatabase.IsStringInSlice needle haystack = true ↔ needle ∈ haystack := by
  induction haystack with
  | nil => simp [generalDatabase.IsStringInSlice]
  | cons s rest ih =>
    unfold generalDatabase.IsStringInSlice
    by_cases h : s = needle
    · simp [h]
    · have h2 : ¬ needle = s := fun e => h e.symm
      simp [h, h2, ih]

/-- Two category predicates over vocabularies without a common member never both hold. -/
theorem IsStringInSlice_disjoint (needle : String) (l₁ l₂ : List String)
    (hd : ∀ x ∈ l₁, x ∉ l₂) :
    ¬ (generalDatabase.IsStringInSlice needle l₁ = true ∧
       generalDatabase.IsStringInSlice needle l₂ = true) := by
  rintro ⟨h1, h2⟩
  exact hd needle ((IsStringInSlice_iff _ _).mp h1) ((IsStringInSlice_iff _ _).mp h2)

/-! ## The PostgreSQL predicates -/

/-- C1: for the PostgreSQL dialect each of IsString, IsText, IsInteger, IsFloat and
IsTemporal holds exactly when the column's DataType is a member of the vocabulary
list of its category, at most one of the five holds for any column, "numeric" is
float and not integer, and "serial" is integer. -/
theorem postgresql_categories_partition (pg : postgresql) (column : Column) :
    (pg.IsString column = true ↔ column.DataType ∈ pg.GetStringDatatypes) ∧
    (pg.IsText column = true ↔ column.DataType ∈ pg.GetTextDatatypes) ∧
    (pg.IsInteger column = true ↔ column.DataType ∈ pg.GetIntegerDatatypes) ∧
    (pg.IsFloat column = true ↔ column.DataType ∈ pg.GetFloatDatatypes) ∧
    (pg.IsTemporal column = true ↔ column.DataType ∈ pg.GetTemporalDatatypes) ∧
    List.count true [pg.IsString column, pg.IsText column, pg.IsInteger column,
      pg.IsFloat column, pg.IsTemporal column] ≤ 1 ∧
    pg.IsFloat { column with DataType := "numeric" } = true ∧
    pg.IsInteger { column with DataType := "numeric" } = false ∧
    pg.IsInteger { column with DataType := "serial" } = true := by
  refine ⟨IsStringInSlice_iff _ _, IsStringInSlice_iff _ _, IsStringInSlice_iff _ _,
    IsStringInSlice_iff _ _, IsStringInSlice_iff _ _, ?_, rfl, rfl, rfl⟩
  have hST := IsStringInSlice_disjoint column.DataType
    pg.GetStringDatatypes pg.GetTextDatatypes
    (by simp [postgresql.GetStringDatatypes, postgresql.GetTextDatatypes])
  have hSI := IsStringInSlice_disjoint column.DataType
    pg.GetStringDatatypes pg.GetIntegerDatatypes
    (by simp [postgresql.GetStringDatatypes, postgresql.GetIntegerDatatypes])
  have hSF := IsStringInSlice_disjoint column.DataType
    pg.GetStringDatatypes pg.GetFloatDatatypes
    (by simp [postgresql.GetStringDatatypes, postgresql.GetFloatDatatypes])
  have hSP := IsStringInSlice_disjoint column.DataType
    pg.GetStringDatatypes pg.GetTemporalDatatypes
    (by simp [postgresql.GetStringDatatypes, postgresql.GetTemporalDatatypes])
  have hTI := IsStringInSlice_disjoint column.DataType
    pg.GetTextDatatypes pg.GetIntegerDatatypes
    (by simp [postgresql.GetTextDatatypes, postgresql.GetIntegerDatatypes])
  have hTF := IsStringInSlice_disjoint column.DataType
    pg.GetTextDatatypes pg.GetFloatDatatypes
    (by simp [postgresql.GetTextDatatypes, postgresql.GetFloatDatatypes])
  have hTP := IsStringInSlice_disjoint column.DataType
    pg.GetTextDatatypes pg.GetTemporalDatatypes
    (by simp [postgresql.GetTextDatatypes, postgresql.GetTemporalDatatypes])
  have hIF := IsStringInSlice_disjoint column.DataType
    pg.GetIntegerDatatypes pg.GetFloatDatatypes
    (by simp [postgresql.GetIntegerDatatypes, postgresql.GetFloatDatatypes])
  have hIP := IsStringInSlice_disjoint column.DataType
    pg.GetIntegerDatatypes pg.GetTemporalDatatypes
    (by simp [postgresql.GetIntegerDatatypes, postgresql.GetTemporalDatatypes])
  have hFP := IsStringInSlice_disjoint column.DataType
    pg.GetFloatDatatypes pg.GetTemporalDatatypes
    (by simp [postgresql.GetFloatDatatypes, postgresql.GetTemporalDatatypes])
  unfold postgresql.IsString postgresql.IsText postgresql.IsInteger postgresql.IsFloat
    postgresql.IsTemporal
  cases h1 : generalDatabase.IsStringInSlice column.DataType pg.GetStringDatatypes <;>
  cases h2 : generalDatabase.IsStringInSlice column.DataType pg.GetTextDatatypes <;>
  cases h3 : generalDatabase.IsStringInSlice column.DataType pg.GetIntegerDatatypes <;>
  cases h4 : generalDatabase.IsStringInSlice column.DataType pg.GetFloatDatatypes <;>
  cases h5 : generalDatabase.IsStringInSlice column.DataType pg.GetTemporalDatatypes <;>
  simp_all

/-- C2, as stated, fails: on a column whose default value is absent (`Valid` false) but
whose `String` field contains "nextval", IsAutoIncrement returns true. -/
theorem postgresql_IsAutoIncrement_absent_default :
    absentDefaultColumn.DefaultValue.Valid = false ∧
    examplePg.IsAutoIncrement absentDefaultColumn = true ∧
    ¬ (examplePg.IsAutoIncrement absentDefaultColumn = true ↔
        (absentDefaultColumn.DefaultValue.Valid = true ∧
          stringsContains absentDefaultColumn.DefaultValue.String "nextval" = true)) := by
  decide

/-- C2, amended: IsAutoIncrement returns true exactly when the `String` field of the
default value contains "nextval", whatever `Valid` is; it returns false when the
default value is absent with the empty `String` field, and true for the default
"nextval('seq')". -/
theorem postgresql_IsAutoIncrement_spec (pg : postgresql) (column : Column) :
    (pg.IsAutoIncrement column = true ↔
      "nextval".data <:+: column.DefaultValue.String.data) ∧
    pg.IsAutoIncrement { column with DefaultValue := NullString.mk "" false } = false ∧
    pg.IsAutoIncrement
      { column with DefaultValue := NullString.mk "nextval('seq')" true } = true :=
  ⟨stringsContains_iff _ _, rfl, rfl⟩

/-- C3, as stated, fails: on a column whose constraint type is absent (`Valid` false)
but whose `String` field contains "PRIMARY KEY", IsPrimaryKey returns true. -/
theorem postgresql_IsPrimaryKey_absent_constraint :
    absentConstraintColumn.ConstraintType.Valid = false ∧
    examplePg.IsPrimaryKey absentConstraintColumn = true ∧
    ¬ (examplePg.IsPrimaryKey absentConstraintColumn = true ↔
        (absentConstraintColumn.ConstraintType.Valid = true ∧
          stringsContains absentConstraintColumn.ConstraintType.String "PRIMARY KEY" = true)) := by
  decide

/-- C3, amended: IsPrimaryKey returns true exactly when the `String` field of the
constraint type contains "PRIMARY KEY", whatever `Valid` is; it returns false when
the constraint type is absent with the empty `String` field. -/
theorem postgresql_IsPrimaryKey_spec (pg : postgresql) (column : Column) :
    (pg.IsPrimaryKey column = true ↔
      "PRIMARY KEY".data <:+: column.ConstraintType.String.data) ∧
    pg.IsPrimaryKey { column with ConstraintType := NullString.mk "" false } = false ∧
    pg.IsPrimaryKey
      { column with ConstraintType := NullString.mk "PRIMARY KEY" true } = true :=
  ⟨stringsContains_iff _ _, rfl, rfl⟩

/-! ## The taggers -/

/-- C4: for every database, column and settings, SQLTag.GenerateTag returns
sql:"type:<DataType><L><N>", where <L> is the maximum length in decimal between
parentheses when the database classifies the column as string and the length is
valid, and empty otherwise, and <N> is ";not null" when the database says the
column is not nullable, and empty otherwise. The email column with the PostgreSQL
dialect gives sql:"type:character varying(255);not null". -/
theorem SQLTag_GenerateTag_spec (t : SQLTag) (db : Database) (column : Column)
    (settings : Settings) :
    SQLTag.GenerateTag t db column settings =
      "sql:\"" ++
        ("type:" ++ column.DataType ++
          (if db.IsString column = true ∧ column.CharacterMaximumLength.Valid = true then
            "(" ++ sprintInt64 column.CharacterMaximumLength.Int64 ++ ")"
          else "") ++
          (if db.IsNullable column = false then ";not null" else "")) ++ "\"" ∧
    SQLTag.GenerateTag t examplePg.toDatabase emailColumn settings =
      "sql:\"type:character varying(255);not null\"" := by
  refine ⟨?_, rfl⟩
  unfold SQLTag.GenerateTag
  have hL : (if (db.IsString column && column.CharacterMaximumLength.Valid) = true then
        "(" ++ sprintInt64 column.CharacterMaximumLength.Int64 ++ ")" else "") =
      (if db.IsString column = true ∧ column.CharacterMaximumLength.Valid = true then
        "(" ++ sprintInt64 column.CharacterMaximumLength.Int64 ++ ")" else "") := by
    cases db.IsString column <;> cases column.CharacterMaximumLength.Valid <;> simp
  simp only [hL]
  cases hN : db.IsNullable column
  · have e : ("type:" ++ column.DataType ++
          (if db.IsString column = true ∧ column.CharacterMaximumLength.Valid = true then
            "(" ++ sprintInt64 column.CharacterMaximumLength.Int64 ++ ")"
          else "") ++ ";") ++ "not null;" =
        ("type:" ++ column.DataType ++
          (if db.IsString column = true ∧ column.CharacterMaximumLength.Valid = true then
            "(" ++ sprintInt64 column.CharacterMaximumLength.Int64 ++ ")"
          else "") ++ ";not null") ++ ";" := by
      rw [String.append_assoc, String.append_assoc _ ";not null" ";"]
      rfl
    simp only [Bool.not_false, if_true, e, stringsTrimSuffix_append]
  · simp only [Bool.not_true, Bool.false_eq_true, if_false, String.append_empty,
      stringsTrimSuffix_append, Bool.true_eq_false]

/-- C5: for every database, column and settings, StblTag.GenerateTag returns
stbl:"<name><P><A>", where <name> is the column name (its snake case when the tag
format is "o"), <P> is ",PRIMARY_KEY" exactly when the database says the column is
a primary key and <A>, after it, is ",SERIAL,AUTO_INCREMENT" exactly when the
database says the column is auto-increment. The id column with the PostgreSQL
dialect and the default settings gives stbl:"id,PRIMARY_KEY,SERIAL,AUTO_INCREMENT". -/
theorem StblTag_GenerateTag_spec (t : StblTag) (SnakeCase : String → String)
    (db : Database) (column : Column) (settings : Settings) (dir : String) :
    StblTag.GenerateTag t SnakeCase db column settings =
      "stbl:\"" ++
        (if settings.OutputFormatTag = "o" then SnakeCase column.Name else column.Name) ++
        (if db.IsPrimaryKey column = true then ",PRIMARY_KEY" else "") ++
        (if db.IsAutoIncrement column = true then ",SERIAL,AUTO_INCREMENT" else "") ++
        "\"" ∧
    StblTag.GenerateTag t SnakeCase examplePg.toDatabase idColumn (Settings.NewSettings dir) =
      "stbl:\"id,PRIMARY_KEY,SERIAL,AUTO_INCREMENT\"" := by
  refine ⟨?_, rfl⟩
  unfold StblTag.GenerateTag
  by_cases h : settings.OutputFormatTag = "o"
  · simp only [h, if_true]
  · simp only [h, if_false]

/-- C6: DbTag.GenerateTag returns db:"<name>" with the raw column name when the tag
format is not "o" and db:"<snake case of the name>" when it is "o"; two calls on
columns of the same name give the same tag, whatever the databases and the other
column fields; a column named id with the default settings gives db:"id". -/
theorem DbTag_GenerateTag_spec (t t' : DbTag) (SnakeCase : String → String)
    (db db' : Database) (column column' : Column) (settings : Settings) (dir : String)
    (hName : column'.Name = column.Name) :
    (settings.OutputFormatTag ≠ "o" →
      DbTag.GenerateTag t SnakeCase db column settings = "db:\"" ++ column.Name ++ "\"") ∧
    (settings.OutputFormatTag = "o" →
      DbTag.GenerateTag t SnakeCase db column settings =
        "db:\"" ++ SnakeCase column.Name ++ "\"") ∧
    DbTag.GenerateTag t' SnakeCase db' column' settings =
      DbTag.GenerateTag t SnakeCase db column settings ∧
    DbTag.GenerateTag t SnakeCase db { column with Name := "id" } (Settings.NewSettings dir) =
      "db:\"id\"" := by
  refine ⟨?_, ?_, ?_, rfl⟩
  · intro h
    simp only [DbTag.GenerateTag, h, if_false]
  · intro h
    simp only [DbTag.GenerateTag, h, if_true]
  · simp only [DbTag.GenerateTag, hName]

/-- C6 at two columns named id that differ in their type, with two databases. -/
theorem DbTag_GenerateTag_spec_witness :
    idColumn.Name = (exampleColumn "id" "integer" "YES").Name ∧
    DbTag.GenerateTag "" id (constDatabase true) idColumn (Settings.NewSettings "/tmp") =
      DbTag.GenerateTag "" id examplePg.toDatabase (exampleColumn "id" "integer" "YES")
        (Settings.NewSettings "/tmp") :=
  ⟨rfl, (DbTag_GenerateTag_spec "" "" id examplePg.toDatabase (constDatabase true)
    (exampleColumn "id" "integer" "YES") idColumn (Settings.NewSettings "/tmp") "/tmp" rfl).2.2.1⟩

/-! ## The column fetch -/

/-- C7: GetColumnsOfTable returns a nil error for every database object and table,
and so does it on the orders table with a statement whose Select fails. -/
theorem postgresql_GetColumnsOfTable_drops_error :
    (∀ (pg : postgresql) (table : Table), (pg.GetColumnsOfTable table).2.1 = none) ∧
    (examplePg.getColumnsOfTableStmt.Select ordersTable.Columns ordersTable.Name
        examplePg.settings.Schema).2 =
      some (Error.external "pq: relation does not exist" false) ∧
    (examplePg.GetColumnsOfTable ordersTable).2.1 = none ∧
    ({ examplePg with settings := { examplePg.settings with Verbose := true } }
      : postgresql).GetColumnsOfTable ordersTable = (ordersTable, none, []) :=
  ⟨fun _ _ => rfl, rfl, rfl, rfl⟩

/-! ## Verification of the settings -/

/-- The supported database types are "pg" and "mysql". -/
theorem supportedDbTypes_iff (dbType : String) :
    mapLookupBool supportedDbTypes dbType = true ↔ dbType = "pg" ∨ dbType = "mysql" := by
  by_cases h1 : dbType = "pg"
  · subst h1; simp [mapLookupBool, supportedDbTypes, List.lookup]
  · by_cases h2 : dbType = "mysql"
    · subst h2; decide
    · have e1 : (dbType == "pg") = false := beq_eq_false_iff_ne.mpr h1
      have e2 : (dbType == "mysql") = false := beq_eq_false_iff_ne.mpr h2
      simp [mapLookupBool, supportedDbTypes, List.lookup, h1, h2, e1, e2]

/-- The supported output formats are "c" and "o". -/
theorem supportedOutputFormats_iff (format : String) :
    mapLookupBool supportedOutputFormats format = true ↔ format = "c" ∨ format = "o" := by
  by_cases h1 : format = "c"
  · subst h1; simp [mapLookupBool, supportedOutputFormats, List.lookup]
  · by_cases h2 : format = "o"
    · subst h2; decide
    · have e1 : (format == "c") = false := beq_eq_false_iff_ne.mpr h1
      have e2 : (format == "o") = false := beq_eq_false_iff_ne.mpr h2
      simp [mapLookupBool, supportedOutputFormats, List.lookup, h1, h2, e1, e2]

/-- What a successful `Verify` went through: both formats supported, a package name,
and the port and output path of the result. -/
theorem Verify_success (settings settings' : Settings) (fs : FileSystem)
    (h : settings.Verify fs = (settings', Outcome.returned none)) :
    mapLookupBool supportedDbTypes settings.DbType = true ∧
    mapLookupBool supportedOutputFormats settings.OutputFormat = true ∧
    settings.PackageName ≠ "" ∧
    settings' =
      { settings with
        OutputFilePath := (settings.prepareOutputPath fs).1
        Port := if settings.Port = "" then mapLookupString dbDefaultPorts settings.DbType
          else settings.Port } := by
  unfold Settings.Verify at h
  split_ifs at h with h1 h2
  · simp at h
  · simp at h
  · split at h
    · simp at h
    · simp at h
    · split at h
      rename_i outputFilePath err hprep
      split at h
      · simp at h
      · simp only [Bool.not_eq_true, Bool.not_eq_false, Bool.not_eq_eq_eq_not, Bool.not_false,
          Bool.not_true] at h1 h2
        by_cases hPort : settings.Port = ""
        · simp only [hPort, if_true] at h
          split_ifs at h with hName
          · simp at h
          · simp only [Prod.mk.injEq, and_true] at h
            refine ⟨h1, h2, hName, ?_⟩
            rw [← h, hprep, hPort]
            simp
        · simp only [hPort, if_false] at h
          split_ifs at h with hName
          · simp at h
          · simp only [Prod.mk.injEq, and_true] at h
            refine ⟨h1, h2, hName, ?_⟩
            rw [← h, hprep]
            simp [hPort]

/-- The port after `Verify`, however the call ends: the port before the call, or the
default port of the database type when there was none. -/
theorem Verify_port_cases (settings : Settings) (fs : FileSystem) :
    (settings.Verify fs).1.Port = settings.Port ∨
    (settings.Port = "" ∧
      (settings.Verify fs).1.Port = mapLookupString dbDefaultPorts settings.DbType) := by
  unfold Settings.Verify
  split_ifs with h1 h2
  · exact Or.inl rfl
  · exact Or.inl rfl
  · split
    · exact Or.inl rfl
    · exact Or.inl rfl
    · split
      split
      · exact Or.inl rfl
      · by_cases hPort : settings.Port = ""
        · right
          refine ⟨hPort, ?_⟩
          simp only [hPort, if_true]
          split_ifs <;> rfl
        · left
          simp only [hPort, if_false]
          split_ifs <;> rfl

/-- Settings with an unsupported output format are rejected with an error, and
settings with an empty package name never pass. -/
theorem Verify_rejects (settings : Settings) (fs : FileSystem) :
    ((settings.OutputFormat ≠ "c" ∧ settings.OutputFormat ≠ "o") →
      ∃ e, (settings.Verify fs).2 = Outcome.returned (some e)) ∧
    (settings.PackageName = "" → (settings.Verify fs).2 ≠ Outcome.returned none) := by
  constructor
  · rintro ⟨hc, ho⟩
    have hf : mapLookupBool supportedOutputFormats settings.OutputFormat = false := by
      cases hb : mapLookupBool supportedOutputFormats settings.OutputFormat
      · rfl
      · rcases (supportedOutputFormats_iff _).mp hb with h | h
        · exact absurd h hc
        · exact absurd h ho
    unfold Settings.Verify
    split_ifs with h1
    · exact ⟨_, rfl⟩
    · exact ⟨_, rfl⟩
    · simp [hf] at *
  · intro hName hs
    have hv : settings.Verify fs = ((settings.Verify fs).1, Outcome.returned none) := by
      rw [← hs]
    exact (Verify_success settings _ fs hv).2.2.1 hName

/-- C8: settings whose DbType is neither "pg" nor "mysql" make Verify return the
error of the dialect check, with the settings unchanged, whatever the other fields
and whatever the file system answers. -/
theorem Verify_rejects_unsupported_DbType (settings : Settings) (fs : FileSystem)
    (hpg : settings.DbType ≠ "pg") (hmysql : settings.DbType ≠ "mysql") :
    settings.Verify fs =
      (settings, Outcome.returned (some (Error.dbTypeNotSupported settings.DbType))) := by
  have hf : mapLookupBool supportedDbTypes settings.DbType = false := by
    cases hb : mapLookupBool supportedDbTypes settings.DbType
    · rfl
    · rcases (supportedDbTypes_iff _).mp hb with h | h
      · exact absurd h hpg
      · exact absurd h hmysql
  unfold Settings.Verify
  simp [hf]

/-- C8 at the dialect "sqlite", on a file system whose `os.Stat` would make the path
check panic. -/
theorem Verify_rejects_unsupported_DbType_witness :
    sqliteSettings.DbType ≠ "pg" ∧ sqliteSettings.DbType ≠ "mysql" ∧
    sqliteSettings.Verify deniedFs =
      (sqliteSettings, Outcome.returned (some (Error.dbTypeNotSupported "sqlite"))) :=
  ⟨by decide, by decide,
    Verify_rejects_unsupported_DbType sqliteSettings deniedFs (by decide) (by decide)⟩

/-- Postconditions of success: when Verify returns nil, the resulting settings have
DbType "pg" or "mysql",
OutputFormat "c" or "o", a non-empty PackageName and a non-empty Port; and the
settings it was called on had a non-empty PackageName and a supported OutputFormat,
so that settings without them never pass. -/
theorem Verify_success_postconditions (settings settings' : Settings) (fs : FileSystem)
    (h : settings.Verify fs = (settings', Outcome.returned none)) :
    (settings'.DbType = "pg" ∨ settings'.DbType = "mysql") ∧
    (settings'.OutputFormat = "c" ∨ settings'.OutputFormat = "o") ∧
    settings'.PackageName ≠ "" ∧
    settings'.Port ≠ "" ∧
    settings.PackageName ≠ "" ∧
    (settings.OutputFormat = "c" ∨ settings.OutputFormat = "o") := by
  obtain ⟨hDb, hFmt, hName, hEq⟩ := Verify_success settings settings' fs h
  have hDb' := (supportedDbTypes_iff _).mp hDb
  have hFmt' := (supportedOutputFormats_iff _).mp hFmt
  subst hEq
  refine ⟨hDb', hFmt', hName, ?_, hName, hFmt'⟩
  show (if settings.Port = "" then mapLookupString dbDefaultPorts settings.DbType
    else settings.Port) ≠ ""
  by_cases hPort : settings.Port = ""
  · rw [if_pos hPort]
    rcases hDb' with hd | hd <;> rw [hd] <;> decide
  · rw [if_neg hPort]
    exact hPort

/-- The postconditions of success at the default settings, on a file system where the
output path is a directory. -/
theorem Verify_success_postconditions_witness :
    (Settings.NewSettings "/tmp").Verify directoryFs =
      (verifiedSettings, Outcome.returned none) ∧
    (verifiedSettings.DbType = "pg" ∨ verifiedSettings.DbType = "mysql") ∧
    (verifiedSettings.OutputFormat = "c" ∨ verifiedSettings.OutputFormat = "o") ∧
    verifiedSettings.PackageName ≠ "" ∧
    verifiedSettings.Port ≠ "" ∧
    (Settings.NewSettings "/tmp").PackageName ≠ "" ∧
    ((Settings.NewSettings "/tmp").OutputFormat = "c" ∨
      (Settings.NewSettings "/tmp").OutputFormat = "o") :=
  ⟨rfl, Verify_success_postconditions (Settings.NewSettings "/tmp") verifiedSettings
    directoryFs rfl⟩

/-- With an empty package name Verify returns an error, unless `verifyOutputPath`
panics first. -/
theorem Verify_empty_PackageName (settings : Settings) (fs : FileSystem)
    (hName : settings.PackageName = "") :
    (∃ e, (settings.Verify fs).2 = Outcome.returned (some e)) ∨
    (settings.verifyOutputPath fs = Outcome.panicked ∧
      (settings.Verify fs).2 = Outcome.panicked) := by
  unfold Settings.Verify
  generalize settings.verifyOutputPath fs = r
  generalize settings.prepareOutputPath fs = q
  generalize mapLookupBool supportedDbTypes settings.DbType = b1
  generalize mapLookupBool supportedOutputFormats settings.OutputFormat = b2
  cases b1
  · simp
  · cases b2
    · simp
    · rcases r with (_ | e) | _
      · rcases q with ⟨path, _ | e⟩
        · by_cases hPort : settings.Port = "" <;> simp [hPort, hName]
        · simp
      · simp
      · simp

/-- C9: settings with an empty PackageName are not always rejected with an error. On
a path whose `os.Stat` fails with a permission error, Verify panics in
verifyOutputPath before it tests the package name, and returns neither nil nor an
error; on an existing directory the same settings are rejected with the error of
the empty package name. -/
theorem Verify_empty_PackageName_panics :
    noPackageSettings.PackageName = "" ∧
    deniedFs.Stat noPackageSettings.OutputFilePath =
      (none, some (Error.external "permission denied" false)) ∧
    noPackageSettings.Verify deniedFs = (noPackageSettings, Outcome.panicked) ∧
    (∀ err : Option Error,
      (noPackageSettings.Verify deniedFs).2 ≠ Outcome.returned err) ∧
    noPackageSettings.Verify directoryFs =
      ({ noPackageSettings with OutputFilePath := "/tmp/", Port := "5432" },
        Outcome.returned (some Error.packageNameEmpty)) := by
  refine ⟨rfl, rfl, rfl, ?_, rfl⟩
  intro err h
  have hp : (noPackageSettings.Verify deniedFs).2 = Outcome.panicked := rfl
  rw [hp] at h
  cases h

/-- C10: when Verify succeeds on settings without a port, the resulting port is "5432"
for DbType "pg" and "3306" for DbType "mysql", two different defaults; when the
settings had a port, Verify leaves it as it was, however the call ends. -/
theorem Verify_port (settings : Settings) (fs : FileSystem) :
    ((settings.Verify fs).2 = Outcome.returned none → settings.Port = "" →
      (settings.DbType = "pg" → (settings.Verify fs).1.Port = "5432") ∧
      (settings.DbType = "mysql" → (settings.Verify fs).1.Port = "3306")) ∧
    (settings.Port ≠ "" → (settings.Verify fs).1.Port = settings.Port) ∧
    mapLookupString dbDefaultPorts "pg" ≠ mapLookupString dbDefaultPorts "mysql" := by
  refine ⟨?_, ?_, by decide⟩
  · intro hs hPort
    have hv : settings.Verify fs = ((settings.Verify fs).1, Outcome.returned none) := by
      rw [← hs]
    have hEq := (Verify_success settings _ fs hv).2.2.2
    constructor
    · intro hd
      rw [hEq]
      show (if settings.Port = "" then mapLookupString dbDefaultPorts settings.DbType
        else settings.Port) = "5432"
      rw [if_pos hPort, hd]
      decide
    · intro hd
      rw [hEq]
      show (if settings.Port = "" then mapLookupString dbDefaultPorts settings.DbType
        else settings.Port) = "3306"
      rw [if_pos hPort, hd]
      decide
  · intro hPort
    rcases Verify_port_cases settings fs with h | ⟨h, _⟩
    · exact h
    · exact absurd h hPort

/-- C10 at the default settings (no port, "pg"), at MySQL settings without a port and
at MySQL settings with the port "3307". -/
theorem Verify_port_witness :
    ((Settings.NewSettings "/tmp").Verify directoryFs).1.Port = "5432" ∧
    (({ Settings.NewSettings "/tmp" with DbType := "mysql" } : Settings).Verify
      directoryFs).1.Port = "3306" ∧
    (mysqlSettings.Verify directoryFs).1.Port = "3307" ∧
    (mysqlSettings.Verify deniedFs).1.Port = "3307" :=
  ⟨((Verify_port (Settings.NewSettings "/tmp") directoryFs).1 rfl rfl).1 rfl,
    ((Verify_port { Settings.NewSettings "/tmp" with DbType := "mysql" } directoryFs).1
      rfl rfl).2 rfl,
    (Verify_port mysqlSettings directoryFs).2.1 (by decide),
    (Verify_port mysqlSettings deniedFs).2.1 (by decide)⟩

/-- Every path of `Verify`: it stops before the output path is prepared and leaves the
settings as they were; or `filepath.Abs` fails after the output path was assigned;
or the package name is empty after the output path and the port were assigned; or
it succeeds. -/
theorem Verify_paths (settings : Settings) (fs : FileSystem) :
    ((settings.Verify fs).1 = settings ∧ (settings.Verify fs).2 ≠ Outcome.returned none) ∨
    (∃ e, (settings.prepareOutputPath fs).2 = some e ∧
      settings.Verify fs =
        ({ settings with OutputFilePath := (settings.prepareOutputPath fs).1 },
          Outcome.returned (some e))) ∨
    (settings.PackageName = "" ∧
      settings.Verify fs =
        ({ settings with
            OutputFilePath := (settings.prepareOutputPath fs).1
            Port := if settings.Port = "" then mapLookupString dbDefaultPorts settings.DbType
              else settings.Port },
          Outcome.returned (some Error.packageNameEmpty))) ∨
    settings.Verify fs =
      ({ settings with
          OutputFilePath := (settings.prepareOutputPath fs).1
          Port := if settings.Port = "" then mapLookupString dbDefaultPorts settings.DbType
            else settings.Port },
        Outcome.returned none) := by
  generalize hp : (if settings.Port = "" then mapLookupString dbDefaultPorts settings.DbType
    else settings.Port) = port
  unfold Settings.Verify
  split_ifs with h1 h2
  · exact Or.inl ⟨rfl, by simp⟩
  · exact Or.inl ⟨rfl, by simp⟩
  · split
    · exact Or.inl ⟨rfl, by simp⟩
    · exact Or.inl ⟨rfl, by simp⟩
    · split
      rename_i outputFilePath err hprep
      split
      · rename_i e
        right; left
        exact ⟨e, by rw [hprep], by rw [hprep]⟩
      · right; right
        by_cases hPort : settings.Port = ""
        · simp only [hPort, if_true] at hp ⊢
          subst hp
          rw [hprep]
          split_ifs with hName
          · exact Or.inl ⟨hName, rfl⟩
          · exact Or.inr rfl
        · simp only [hPort, if_false] at hp ⊢
          subst hp
          rw [hprep]
          split_ifs with hName
          · exact Or.inl ⟨hName, rfl⟩
          · exact Or.inr rfl

/-- C11, as stated, fails: the default settings with the tag format "x", which is not a
supported format, pass Verify, and the tag format is still "x" afterwards. -/
theorem Verify_accepts_unsupported_OutputFormatTag :
    mapLookupBool supportedOutputFormats tagXSettings.OutputFormatTag = false ∧
    (tagXSettings.Verify directoryFs).2 = Outcome.returned none ∧
    (tagXSettings.Verify directoryFs).1.OutputFormatTag = "x" := by
  decide

/-- C11, amended: Verify does not read the tag format. Replacing OutputFormatTag by
any value leaves the way the call ends (nil, an error or a panic) unchanged, and the
resulting settings differ only in carrying that value; OutputFormatTag after the
call is what it was before. -/
theorem Verify_ignores_OutputFormatTag (settings : Settings) (fs : FileSystem)
    (tag : String) :
    (({ settings with OutputFormatTag := tag } : Settings).Verify fs).2 =
      (settings.Verify fs).2 ∧
    (({ settings with OutputFormatTag := tag } : Settings).Verify fs).1 =
      { (settings.Verify fs).1 with OutputFormatTag := tag } ∧
    (settings.Verify fs).1.OutputFormatTag = settings.OutputFormatTag := by
  unfold Settings.Verify
  have hv : ({ settings with OutputFormatTag := tag } : Settings).verifyOutputPath fs =
      settings.verifyOutputPath fs := rfl
  have hq : ({ settings with OutputFormatTag := tag } : Settings).prepareOutputPath fs =
      settings.prepareOutputPath fs := rfl
  rw [hv, hq]
  dsimp only
  generalize settings.verifyOutputPath fs = r
  generalize settings.prepareOutputPath fs = q
  generalize mapLookupBool supportedDbTypes settings.DbType = b1
  generalize mapLookupBool supportedOutputFormats settings.OutputFormat = b2
  cases b1
  · simp
  · cases b2
    · simp
    · rcases r with (_ | e) | _
      · rcases q with ⟨path, _ | e⟩
        · by_cases hPort : settings.Port = "" <;>
            by_cases hName : settings.PackageName = "" <;>
            simp [hPort, hName]
        · simp
      · simp
      · simp

/-! ## The connection -/

/-- C12: GetTables returns the same tables and the same error whether Verbose is set
or not, and they are the destination and the error of the underlying Select; the
error is nil exactly when the error of Select is nil. -/
theorem GetTables_verbose_irrelevant (pg : postgresql) (verbose : Bool) :
    (({ pg with settings := { pg.settings with Verbose := verbose } }
      : postgresql).GetTables).1 = pg.GetTables.1 ∧
    (({ pg with settings := { pg.settings with Verbose := verbose } }
      : postgresql).GetTables).2.1 = pg.GetTables.2.1 ∧
    pg.GetTables.1 = (pg.db.Select [] postgresql.getTablesQuery pg.settings.Schema).1 ∧
    pg.GetTables.2.1 = (pg.db.Select [] postgresql.getTablesQuery pg.settings.Schema).2 ∧
    (pg.GetTables.2.1 = none ↔
      (pg.db.Select [] postgresql.getTablesQuery pg.settings.Schema).2 = none) :=
  ⟨rfl, rfl, rfl, rfl, Iff.rfl⟩

/-- C13: the DSN is host=<Host> port=<Port> user=<User> dbname=<DbName>
password=<Pswd> sslmode=disable, and two calls whose settings agree on these five
fields give the same string, whatever the database objects and the other fields. -/
theorem DSN_spec (pg pg' : postgresql) (settings settings' : Settings)
    (hHost : settings'.Host = settings.Host) (hPort : settings'.Port = settings.Port)
    (hUser : settings'.User = settings.User) (hDbName : settings'.DbName = settings.DbName)
    (hPswd : settings'.Pswd = settings.Pswd) :
    pg.DSN settings =
      "host=" ++ settings.Host ++ " port=" ++ settings.Port ++ " user=" ++ settings.User ++
        " dbname=" ++ settings.DbName ++ " password=" ++ settings.Pswd ++ " sslmode=disable" ∧
    pg'.DSN settings' = pg.DSN settings := by
  constructor
  · apply String.ext
    simp only [postgresql.DSN, fmtSprintf, String.data_append]
    simp [sprintfChars]
  · simp only [postgresql.DSN, hHost, hPort, hUser, hDbName, hPswd]

/-- C13 at the default settings and at settings that share their five connection
fields and differ in every other field, with two database objects. -/
theorem DSN_spec_witness :
    examplePg.DSN (Settings.NewSettings "/tmp") =
      "host=127.0.0.1 port= user=postgres dbname=postgres password= sslmode=disable" ∧
    ({ examplePg with settings := otherSettings } : postgresql).DSN
        { otherSettings with
          Host := "127.0.0.1", Port := "", User := "postgres", DbName := "postgres",
          Pswd := "" } =
      examplePg.DSN (Settings.NewSettings "/tmp") :=
  ⟨(DSN_spec examplePg { examplePg with settings := otherSettings }
      (Settings.NewSettings "/tmp")
      { otherSettings with
        Host := "127.0.0.1", Port := "", User := "postgres", DbName := "postgres", Pswd := "" }
      rfl rfl rfl rfl rfl).1.trans (by decide),
    (DSN_spec examplePg { examplePg with settings := otherSettings }
      (Settings.NewSettings "/tmp")
      { otherSettings with
        Host := "127.0.0.1", Port := "", User := "postgres", DbName := "postgres", Pswd := "" }
      rfl rfl rfl rfl rfl).2⟩

/-! ## Failure and frame of the verification -/

/-- C14, as stated, fails: without a package name Verify returns an error after it has
replaced the empty port by "5432" and the output path "/tmp" by "/tmp/"; and when
`filepath.Abs` fails it returns that error after it has replaced the output path. -/
theorem Verify_failure_changes_settings :
    (noPackageSettings.Verify directoryFs).2 =
      Outcome.returned (some Error.packageNameEmpty) ∧
    noPackageSettings.Port = "" ∧
    (noPackageSettings.Verify directoryFs).1.Port = "5432" ∧
    noPackageSettings.OutputFilePath = "/tmp" ∧
    (noPackageSettings.Verify directoryFs).1.OutputFilePath = "/tmp/" ∧
    ((Settings.NewSettings "/tmp").Verify noCwdFs).2 =
      Outcome.returned (some (Error.external "getwd: no such file or directory" false)) ∧
    ((Settings.NewSettings "/tmp").Verify noCwdFs).1.OutputFilePath = "/" := by
  decide

/-- C14, amended: when Verify returns an error, every field other than OutputFilePath
and Port has the value it had before the call, and one of three holds: the settings
are wholly unchanged; or the error is that of `filepath.Abs` and only OutputFilePath
was replaced by the prepared path; or the error is the empty package name and
OutputFilePath was replaced by the prepared path and an empty Port by the default
port. -/
theorem Verify_failure_state (settings : Settings) (fs : FileSystem) (e : Error)
    (h : (settings.Verify fs).2 = Outcome.returned (some e)) :
    (settings.Verify fs).1 =
      { settings with
        OutputFilePath := (settings.Verify fs).1.OutputFilePath
        Port := (settings.Verify fs).1.Port } ∧
    ((settings.Verify fs).1 = settings ∨
      ((settings.prepareOutputPath fs).2 = some e ∧
        (settings.Verify fs).1 =
          { settings with OutputFilePath := (settings.prepareOutputPath fs).1 }) ∨
      (e = Error.packageNameEmpty ∧ settings.PackageName = "" ∧
        (settings.Verify fs).1 =
          { settings with
            OutputFilePath := (settings.prepareOutputPath fs).1
            Port := if settings.Port = "" then mapLookupString dbDefaultPorts settings.DbType
              else settings.Port })) := by
  rcases Verify_paths settings fs with ⟨h1, _⟩ | ⟨e', he', h2⟩ | ⟨hName, h3⟩ | h4
  · refine ⟨?_, Or.inl h1⟩
    rw [h1]
  · rw [h2] at h ⊢
    simp only [Outcome.returned.injEq, Option.some.injEq] at h
    subst h
    exact ⟨rfl, Or.inr (Or.inl ⟨he', rfl⟩)⟩
  · rw [h3] at h ⊢
    simp only [Outcome.returned.injEq, Option.some.injEq] at h
    exact ⟨rfl, Or.inr (Or.inr ⟨h.symm, hName, rfl⟩)⟩
  · rw [h4] at h
    simp at h

/-- C14, amended, at the settings without a package name: the error is returned, the
port and the output path are the new ones and the third case holds. -/
theorem Verify_failure_state_witness :
    (noPackageSettings.Verify directoryFs).2 =
      Outcome.returned (some Error.packageNameEmpty) ∧
    (noPackageSettings.Verify directoryFs).1 =
      { noPackageSettings with
        OutputFilePath := (noPackageSettings.Verify directoryFs).1.OutputFilePath
        Port := (noPackageSettings.Verify directoryFs).1.Port } :=
  ⟨by decide,
    (Verify_failure_state noPackageSettings directoryFs Error.packageNameEmpty
      (by decide)).1⟩

/-- C15: verifyOutputPath panics exactly when `os.Stat` returns a nil FileInfo with an
error that is not a not-exist error (or with no error); it does so on a path whose
`os.Stat` fails with a permission error, and Verify panics with it. -/
theorem verifyOutputPath_panics_on_stat_error :
    (∀ (settings : Settings) (fs : FileSystem),
      settings.verifyOutputPath fs = Outcome.panicked ↔
        ((fs.Stat settings.OutputFilePath).1 = none ∧
          osIsNotExist (fs.Stat settings.OutputFilePath).2 = false)) ∧
    deniedFs.Stat (Settings.NewSettings "/tmp").OutputFilePath =
      (none, some (Error.external "permission denied" false)) ∧
    (Settings.NewSettings "/tmp").verifyOutputPath deniedFs = Outcome.panicked ∧
    ((Settings.NewSettings "/tmp").Verify deniedFs).2 = Outcome.panicked := by
  refine ⟨?_, rfl, rfl, rfl⟩
  intro settings fs
  unfold Settings.verifyOutputPath
  rcases fs.Stat settings.OutputFilePath with ⟨info, err⟩
  cases hne : osIsNotExist err
  · rcases info with _ | fi
    · simp [hne]
    · cases hd : fi.IsDir <;> simp [hne, hd]
  · simp [hne]

/-- C16: Verify changes at most OutputFilePath and Port: however the call ends, the
settings after it are the settings before it with these two fields replaced, and
each of the other nineteen fields is as it was. -/
theorem Verify_frame (settings : Settings) (fs : FileSystem) :
    (settings.Verify fs).1 =
      { settings with
        OutputFilePath := (settings.Verify fs).1.OutputFilePath
        Port := (settings.Verify fs).1.Port } ∧
    (settings.Verify fs).1.Verbose = settings.Verbose ∧
    (settings.Verify fs).1.DbType = settings.DbType ∧
    (settings.Verify fs).1.User = settings.User ∧
    (settings.Verify fs).1.Pswd = settings.Pswd ∧
    (settings.Verify fs).1.DbName = settings.DbName ∧
    (settings.Verify fs).1.Schema = settings.Schema ∧
    (settings.Verify fs).1.Host = settings.Host ∧
    (settings.Verify fs).1.OutputFormat = settings.OutputFormat ∧
    (settings.Verify fs).1.OutputFormatTag = settings.OutputFormatTag ∧
    (settings.Verify fs).1.PackageName = settings.PackageName ∧
    Settings.Prefix (settings.Verify fs).1 = Settings.Prefix settings ∧
    Settings.Suffix (settings.Verify fs).1 = Settings.Suffix settings ∧
    (settings.Verify fs).1.TagsNoDb = settings.TagsNoDb ∧
    (settings.Verify fs).1.TagsMastermindStructable = settings.TagsMastermindStructable ∧
    (settings.Verify fs).1.TagsMastermindStructableOnly =
      settings.TagsMastermindStructableOnly ∧
    (settings.Verify fs).1.IsMastermindStructableRecorder =
      settings.IsMastermindStructableRecorder ∧
    (settings.Verify fs).1.TagsGorm = settings.TagsGorm ∧
    (settings.Verify fs).1.TagsSQL = settings.TagsSQL ∧
    (settings.Verify fs).1.TagsSQLOnly = settings.TagsSQLOnly := by
  rcases Verify_paths settings fs with ⟨h, _⟩ | ⟨e, _, h⟩ | ⟨_, h⟩ | h <;> rw [h] <;>
    exact ⟨rfl, rfl, rfl, rfl, rfl, rfl, rfl, rfl, rfl, rfl, rfl, rfl, rfl, rfl, rfl, rfl,
      rfl, rfl, rfl, rfl⟩

end TablesToGo
